import Mathlib

/-!
Verification development for the USSD-over-SMPP simulation fabric
(gateway `ussd_smpp_simulator` and handler `ussd_smpp_client_simulator`).

Shallow embedding conventions:
* bytes are `Nat` (the code only moves them; `u8` range is irrelevant to the
  properties proved here, except where noted);
* byte buffers and streams are `List Nat`;
* Rust `String`s are `List Char`, written via `"literal".data`;
* machine integers (`u32`, `usize`) are `Nat`; `saturating_sub` is `Nat`
  subtraction, which is itself saturating;
* fallible reads (`read_exact`, slice indexing, `Vec` indexing) return
  `Option`, where `none` models either an `Err` or a panic, as noted at
  each definition;
* wall-clock driven values (random draws, session expiry) are explicit
  parameters.
-/

namespace UssdSmpp

/-- Big-endian 32-bit encoding of a `u32` value, as in `u32::to_be_bytes`. -/
def toBe32 (n : Nat) : List Nat :=
  [n / 16777216 % 256, n / 65536 % 256, n / 256 % 256, n % 256]

/-- Big-endian 32-bit decoding, as in `u32::from_be_bytes`. -/
def fromBe32 (b0 b1 b2 b3 : Nat) : Nat :=
  ((b0 * 256 + b1) * 256 + b2) * 256 + b3

theorem fromBe32_toBe32 (n : Nat) (h : n < 4294967296) :
    fromBe32 (n / 16777216 % 256) (n / 65536 % 256) (n / 256 % 256) (n % 256) = n := by
  unfold fromBe32
  omega

/-- Model of `SmppHeader` from `ussd_smpp_simulator/src/main.rs`. -/
structure SmppHeader where
  command_length : Nat
  command_id : Nat
  command_status : Nat
  sequence_number : Nat
deriving DecidableEq, Repr

/-- Model of `SmppPdu` from `ussd_smpp_simulator/src/main.rs`. -/
structure SmppPdu where
  header : SmppHeader
  body : List Nat
deriving DecidableEq, Repr

-- SMPP command ids and status codes (constants at the top of main.rs).
def BIND_RECEIVER : Nat := 0x00000001
def BIND_TRANSMITTER : Nat := 0x00000002
def BIND_TRANSCEIVER : Nat := 0x00000009
def SUBMIT_SM : Nat := 0x00000004
def SUBMIT_SM_RESP : Nat := 0x80000004
def DELIVER_SM : Nat := 0x00000005
def ESME_ROK : Nat := 0x00000000
def ESME_RINVPASWD : Nat := 0x0000000E

/-- Model of `UssdConnectionHandler::send_pdu`: header words big-endian, then raw body. -/
def encodePdu (pdu : SmppPdu) : List Nat :=
  toBe32 pdu.header.command_length ++ toBe32 pdu.header.command_id ++
    toBe32 pdu.header.command_status ++ toBe32 pdu.header.sequence_number ++ pdu.body

/-- Model of `UssdConnectionHandler::read_pdu`: read exactly 16 header bytes, parse the
four big-endian words, then read `command_length.saturating_sub(16)` body
bytes (`Nat` subtraction is saturating).  `none` models a `read_exact` error
(stream too short); on success the unread remainder of the stream is
returned alongside the PDU. -/
def readPdu (s : List Nat) : Option (SmppPdu × List Nat) :=
  match s with
  | b0 :: b1 :: b2 :: b3 :: b4 :: b5 :: b6 :: b7 ::
    b8 :: b9 :: b10 :: b11 :: b12 :: b13 :: b14 :: b15 :: rest =>
    let command_length := fromBe32 b0 b1 b2 b3
    let command_id := fromBe32 b4 b5 b6 b7
    let command_status := fromBe32 b8 b9 b10 b11
    let sequence_number := fromBe32 b12 b13 b14 b15
    let body_length := command_length - 16
    if body_length ≤ rest.length then
      some (⟨⟨command_length, command_id, command_status, sequence_number⟩,
             rest.take body_length⟩, rest.drop body_length)
    else none
  | _ => none

/-- C1 counterexample input: a 16-byte frame whose `command_length` word is 0. -/
def shortLengthFrame : List Nat := [0, 0, 0, 0, 0, 0, 0, 4, 0, 0, 0, 0, 0, 0, 0, 1]

/-- C1 (counterexample). A frame with `command_length = 0 < 16` is decoded by
`read_pdu` without any error: the claim that such frames fail with
`MalformedFrame` is false on the code. -/
theorem read_pdu_no_malformed_frame_check :
    fromBe32 0 0 0 0 < 16 ∧ readPdu shortLengthFrame ≠ none := by
  decide

/-- C1 (amended). If the header carries `command_length < 16`, `read_pdu` does
not fail: `saturating_sub` clamps the body length to 0 and it returns the
decoded header with an empty body, leaving the rest of the stream unread. -/
theorem read_pdu_short_length (b0 b1 b2 b3 b4 b5 b6 b7 b8 b9 b10 b11 b12 b13 b14 b15 : Nat)
    (rest : List Nat) (h : fromBe32 b0 b1 b2 b3 < 16) :
    readPdu (b0 :: b1 :: b2 :: b3 :: b4 :: b5 :: b6 :: b7 ::
             b8 :: b9 :: b10 :: b11 :: b12 :: b13 :: b14 :: b15 :: rest) =
      some (⟨⟨fromBe32 b0 b1 b2 b3, fromBe32 b4 b5 b6 b7,
              fromBe32 b8 b9 b10 b11, fromBe32 b12 b13 b14 b15⟩, []⟩, rest) := by
  have h0 : fromBe32 b0 b1 b2 b3 - 16 = 0 := by omega
  simp [readPdu, h0]

/-- C1 (witness): the amended theorem evaluated at the concrete short-length
frame. -/
theorem read_pdu_short_length_witness :
    fromBe32 0 0 0 0 < 16 ∧
      readPdu shortLengthFrame = some (⟨⟨0, 4, 0, 1⟩, []⟩, []) := by
  refine ⟨by decide, ?_⟩
  have h := read_pdu_short_length 0 0 0 0 0 0 0 4 0 0 0 0 0 0 0 1 [] (by decide)
  simpa [shortLengthFrame, fromBe32] using h

/-- C3. Codec round-trip: for every well-formed PDU (header fields in `u32`
range and `command_length = 16 + len(body)`), decoding the encoding yields the
PDU back with the whole stream consumed. -/
theorem decode_encode (p : SmppPdu)
    (hlen : p.header.command_length = 16 + p.body.length)
    (h1 : p.header.command_length < 4294967296)
    (h2 : p.header.command_id < 4294967296)
    (h3 : p.header.command_status < 4294967296)
    (h4 : p.header.sequence_number < 4294967296) :
    readPdu (encodePdu p) = some (p, []) := by
  obtain ⟨⟨cl, cid, cst, sn⟩, body⟩ := p
  simp only at hlen h1 h2 h3 h4
  simp only [encodePdu, toBe32, List.cons_append, List.nil_append, readPdu]
  rw [fromBe32_toBe32 cl h1, fromBe32_toBe32 cid h2, fromBe32_toBe32 cst h3,
    fromBe32_toBe32 sn h4]
  have hb : cl - 16 = body.length := by omega
  simp [hb]

/-- C3 (witness): the round-trip theorem evaluated at a concrete PDU. -/
theorem decode_encode_witness :
    readPdu (encodePdu ⟨⟨17, 4, 0, 1⟩, [7]⟩) = some (⟨⟨17, 4, 0, 1⟩, [7]⟩, []) :=
  decode_encode ⟨⟨17, 4, 0, 1⟩, [7]⟩ (by decide) (by decide) (by decide) (by decide)
    (by decide)

/-- Model of `UssdConnectionHandler::read_c_string`, phrased on the unread suffix of
the body: content bytes up to the first 0x00, which is skipped when present;
with no terminator the rest of the buffer is consumed.  This function never
fails — exactly as in the source. -/
def cStrSpan : List Nat → List Nat × List Nat
  | [] => ([], [])
  | b :: rest =>
    if b = 0 then ([], rest)
    else
      let r := cStrSpan rest
      (b :: r.1, r.2)

/-- A single positional `body[pos]` read; `none` models the Rust
index-out-of-bounds panic when the position has reached the end. -/
def readU8 : List Nat → Option (Nat × List Nat)
  | [] => none
  | b :: rest => some (b, rest)

/-- Model of `OptionalParam` from `ussd_smpp_simulator/src/main.rs`. -/
structure OptionalParam where
  tag : Nat
  length : Nat
  value : List Nat
deriving DecidableEq, Repr

/-- Model of `SubmitSmPdu` from `ussd_smpp_simulator/src/main.rs`.  C-string fields are
kept as their raw bytes (`String::from_utf8_lossy` presentation is not needed
by any claim about this parser). -/
structure SubmitSmPdu where
  service_type : List Nat
  source_addr_ton : Nat
  source_addr_npi : Nat
  source_addr : List Nat
  dest_addr_ton : Nat
  dest_addr_npi : Nat
  destination_addr : List Nat
  esm_class : Nat
  protocol_id : Nat
  priority_flag : Nat
  schedule_delivery_time : List Nat
  validity_period : List Nat
  registered_delivery : Nat
  replace_if_present_flag : Nat
  data_coding : Nat
  sm_default_msg_id : Nat
  sm_length : Nat
  short_message : List Nat
  optional_params : List OptionalParam
deriving DecidableEq, Repr

/-- Model of `UssdConnectionHandler::parse_submit_sm`: positional walk over the body.
`none` models a panic: each fixed `u8` read is an unchecked `body[pos]`
index, and the final `body[pos..pos + sm_length]` slice is unchecked — the
Rust function has no error return at all. -/
def parseSubmitSm (body : List Nat) : Option SubmitSmPdu := do
  let (service_type, r1) := cStrSpan body
  let (source_addr_ton, r2) ← readU8 r1
  let (source_addr_npi, r3) ← readU8 r2
  let (source_addr, r4) := cStrSpan r3
  let (dest_addr_ton, r5) ← readU8 r4
  let (dest_addr_npi, r6) ← readU8 r5
  let (destination_addr, r7) := cStrSpan r6
  let (esm_class, r8) ← readU8 r7
  let (protocol_id, r9) ← readU8 r8
  let (priority_flag, r10) ← readU8 r9
  let (schedule_delivery_time, r11) := cStrSpan r10
  let (validity_period, r12) := cStrSpan r11
  let (registered_delivery, r13) ← readU8 r12
  let (replace_if_present_flag, r14) ← readU8 r13
  let (data_coding, r15) ← readU8 r14
  let (sm_default_msg_id, r16) ← readU8 r15
  let (sm_length, r17) ← readU8 r16
  if sm_length ≤ r17.length then
    some ⟨service_type, source_addr_ton, source_addr_npi, source_addr,
      dest_addr_ton, dest_addr_npi, destination_addr, esm_class, protocol_id,
      priority_flag, schedule_delivery_time, validity_period,
      registered_delivery, replace_if_present_flag, data_coding,
      sm_default_msg_id, sm_length, r17.take sm_length, []⟩
  else none

/-- C4. On a body too short for the positional SubmitSM fields the parser does
NOT return a `TruncatedPdu` error: the Rust code panics on the out-of-bounds
index (modelled `none`).  Evaluations at the failing inputs: the empty body
and a 16-byte body abort mid-walk, while the minimal 17-byte body succeeds. -/
theorem parse_submit_sm_panics_on_short_body :
    parseSubmitSm [] = none ∧
      parseSubmitSm (List.replicate 16 0) = none ∧
      (parseSubmitSm (List.replicate 17 0)).isSome = true := by
  decide

/-- Model of `Session` from `ussd_smpp_simulator/src/main.rs` (the per-system-id
routing-table entry).  String fields are byte lists; `connection_id` is an
opaque `Nat`. -/
structure Session where
  system_id : List Nat
  password : List Nat
  bound : Bool
  bind_type : Nat
  can_receive_forwards : Bool
  is_user_client : Bool
  connection_id : Option Nat
deriving DecidableEq, Repr

/-- The slice of `Config` that `handle_bind` reads:
`smpp.system_id`, `client_simulator.forwarding_clients`,
`client_simulator.user_clients`. -/
structure BindConfig where
  smpp_system_id : List Nat
  forwarding_clients : List (List Nat)
  user_clients : List (List Nat)
deriving Repr

/-- Model of `UssdConnectionHandler::parse_bind_request`: the first two C-strings of
the body. -/
def parseBindRequest (body : List Nat) : List Nat × List Nat :=
  let (system_id, rest) := cStrSpan body
  let (password, _) := cStrSpan rest
  (system_id, password)

/-- Model of `UssdConnectionHandler::create_bind_response`: the body is the gateway
system id as a null-terminated C-string. -/
def createBindResponse (cfg : BindConfig) (command_id status sequence : Nat) : SmppPdu :=
  let body := cfg.smpp_system_id ++ [0]
  ⟨⟨16 + body.length, command_id, status, sequence⟩, body⟩

/-- Model of `HashMap::get` on the sessions routing table, modelled on the association
list (insertion via `cons`, so the most recent binding for a key wins — the
same observable behaviour as `HashMap::insert`). -/
def lookupSession : List (List Nat × Session) → List Nat → Option Session
  | [], _ => none
  | (k, v) :: rest, key => if k = key then some v else lookupSession rest key

/-- The result of `UssdConnectionHandler::handle_bind`: the updated routing
table and the response PDU sent back. -/
structure BindOutcome where
  sessions : List (List Nat × Session)
  response : SmppPdu
deriving Repr

/-- Model of `UssdConnectionHandler::handle_bind`. -/
def handleBind (cfg : BindConfig) (sessions : List (List Nat × Session))
    (connId : Nat) (pdu : SmppPdu) : BindOutcome :=
  let (system_id, password) := parseBindRequest pdu.body
  if system_id ≠ [] ∧ password ≠ [] then
    let can_receive_forwards := system_id ∈ cfg.forwarding_clients
    let is_user_client := system_id ∈ cfg.user_clients
    let session : Session :=
      ⟨system_id, password, true, pdu.header.command_id,
       can_receive_forwards, is_user_client, some connId⟩
    let sessions1 := (system_id, session) :: sessions
    ⟨sessions1,
     createBindResponse cfg (Nat.lor pdu.header.command_id 0x80000000) ESME_ROK
       pdu.header.sequence_number⟩
  else
    ⟨sessions,
     createBindResponse cfg (Nat.lor pdu.header.command_id 0x80000000) ESME_RINVPASWD
       pdu.header.sequence_number⟩

/-- C2. Bind outcomes: non-empty `(system_id, password)` gives status
`ESME_ROK` and a routing entry for that system id; an empty one gives
`ESME_RINVPASWD` and leaves the routing table untouched; in both cases the
response command id is the request command id OR `0x80000000`. -/
theorem handle_bind_outcomes (cfg : BindConfig) (sessions : List (List Nat × Session))
    (connId : Nat) (pdu : SmppPdu) :
    (handleBind cfg sessions connId pdu).response.header.command_id =
        Nat.lor pdu.header.command_id 0x80000000 ∧
      ((parseBindRequest pdu.body).1 ≠ [] → (parseBindRequest pdu.body).2 ≠ [] →
        (handleBind cfg sessions connId pdu).response.header.command_status = ESME_ROK ∧
          (lookupSession (handleBind cfg sessions connId pdu).sessions
            (parseBindRequest pdu.body).1).isSome = true) ∧
      ((parseBindRequest pdu.body).1 = [] ∨ (parseBindRequest pdu.body).2 = [] →
        (handleBind cfg sessions connId pdu).response.header.command_status = ESME_RINVPASWD ∧
          (handleBind cfg sessions connId pdu).sessions = sessions) := by
  obtain ⟨⟨cl, cid, cst, sn⟩, body⟩ := pdu
  refine ⟨?_, ?_, ?_⟩
  · by_cases h : (parseBindRequest body).1 ≠ [] ∧ (parseBindRequest body).2 ≠ [] <;>
      simp [handleBind, createBindResponse, h]
  · intro h1 h2
    have h : (parseBindRequest body).1 ≠ [] ∧ (parseBindRequest body).2 ≠ [] := ⟨h1, h2⟩
    simp [handleBind, createBindResponse, h, lookupSession, ESME_ROK]
  · intro h12
    have h : ¬((parseBindRequest body).1 ≠ [] ∧ (parseBindRequest body).2 ≠ []) := by
      rcases h12 with h' | h' <;> simp [h']
    simp [handleBind, createBindResponse, h, ESME_RINVPASWD]

/-- C2 (witness): the bind theorem evaluated at a concrete successful bind
(body `"user\0pass\0"` as bytes) and projected to the success case. -/
theorem handle_bind_outcomes_witness :
    (handleBind ⟨[71], [], []⟩ [] 1
        ⟨⟨25, 9, 0, 1⟩, [117, 115, 101, 114, 0, 112, 97, 115, 115, 0]⟩).response.header.command_status =
        ESME_ROK ∧
      (lookupSession (handleBind ⟨[71], [], []⟩ [] 1
        ⟨⟨25, 9, 0, 1⟩, [117, 115, 101, 114, 0, 112, 97, 115, 115, 0]⟩).sessions
          [117, 115, 101, 114]).isSome = true := by
  have h := (handle_bind_outcomes ⟨[71], [], []⟩ [] 1
    ⟨⟨25, 9, 0, 1⟩, [117, 115, 101, 114, 0, 112, 97, 115, 115, 0]⟩).2.1
    (by decide) (by decide)
  have he : (parseBindRequest [117, 115, 101, 114, 0, 112, 97, 115, 115, 0]).1 =
      [117, 115, 101, 114] := by decide
  simpa [he] using h

/-- Model of `ResponsePercentageConfig` from `ussd_smpp_simulator/src/main.rs`.  The
`f64` percentages are modelled as rationals; the code only compares them to
the draw. -/
structure ResponsePercentageConfig where
  success_percentage : Rat
  failure_percentage : Rat
  no_response_percentage : Rat
  failure_error_code : Nat
  no_response_delay_ms : Nat

/-- Model of `ResponseType` from `ussd_smpp_simulator/src/main.rs`. -/
inductive ResponseType where
  | Success
  | Failure
  | NoResponse
deriving DecidableEq, Repr

/-- Model of `UssdConnectionHandler::determine_response_type`.  The code draws
`random_value` in `[0, 100)` from a hash of the wall clock; the draw is an
explicit parameter here. -/
def determineResponseType (cfg : ResponsePercentageConfig) (random_value : Rat) :
    ResponseType :=
  let success_threshold := cfg.success_percentage
  let failure_threshold := success_threshold + cfg.failure_percentage
  if random_value < success_threshold then .Success
  else if random_value < failure_threshold then .Failure
  else .NoResponse

/-- Model of `UssdConnectionHandler::send_submit_sm_resp_error`: a bodiless
SUBMIT_SM_RESP carrying the given error code. -/
def submitSmRespError (sequence_number error_code : Nat) : SmppPdu :=
  ⟨⟨16, SUBMIT_SM_RESP, error_code, sequence_number⟩, []⟩

/-- The success-branch SUBMIT_SM_RESP of `handle_ussd_submit_sm`: body is the
generated message id as a null-terminated C-string. -/
def submitSmRespOk (sequence_number : Nat) (message_id : List Nat) : SmppPdu :=
  let body := message_id ++ [0]
  ⟨⟨16 + body.length, SUBMIT_SM_RESP, ESME_ROK, sequence_number⟩, body⟩

/-- Model of `UssdConnectionHandler::handle_ussd_submit_sm`, as the list of PDUs the
gateway emits for the inbound SUBMIT_SM.  The wall-clock draw and the
generated message id are parameters; the Success branch additionally emits
whatever `process_ussd_request` sends (DELIVER_SM or a forward), abstracted
as `ussdOut`.  `none` models the `parse_submit_sm` panic on a short body,
which happens before the disposition branch. -/
def handleUssdSubmitSm (cfg : ResponsePercentageConfig) (random_value : Rat)
    (message_id : List Nat) (ussdOut : List SmppPdu) (pdu : SmppPdu) :
    Option (List SmppPdu) :=
  match parseSubmitSm pdu.body with
  | none => none
  | some _ =>
    match determineResponseType cfg random_value with
    | .Success => some (submitSmRespOk pdu.header.sequence_number message_id :: ussdOut)
    | .Failure =>
      some [submitSmRespError pdu.header.sequence_number cfg.failure_error_code]
    | .NoResponse => some []

/-- C5. A draw in the Failure bucket (at least `success_percentage` and below
`success_percentage + failure_percentage`) makes the gateway answer a parsed
SUBMIT_SM with exactly one PDU: a SUBMIT_SM_RESP whose status is the
configured `failure_error_code` and whose body is empty — in particular no
DELIVER_SM is emitted.  With `success = 0` and `failure = 100` every draw in
`[0, 100)` lands in this bucket. -/
theorem failure_disposition (cfg : ResponsePercentageConfig) (rv : Rat)
    (message_id : List Nat) (ussdOut : List SmppPdu) (pdu : SmppPdu)
    (hparse : (parseSubmitSm pdu.body).isSome = true)
    (h0 : cfg.success_percentage ≤ rv)
    (h1 : rv < cfg.success_percentage + cfg.failure_percentage) :
    handleUssdSubmitSm cfg rv message_id ussdOut pdu =
        some [submitSmRespError pdu.header.sequence_number cfg.failure_error_code] ∧
      (submitSmRespError pdu.header.sequence_number cfg.failure_error_code).header.command_status =
        cfg.failure_error_code ∧
      (submitSmRespError pdu.header.sequence_number cfg.failure_error_code).header.command_id =
        SUBMIT_SM_RESP ∧
      (submitSmRespError pdu.header.sequence_number cfg.failure_error_code).body = [] ∧
      ∀ q ∈ [submitSmRespError pdu.header.sequence_number cfg.failure_error_code],
        q.header.command_id ≠ DELIVER_SM := by
  obtain ⟨sm, hsm⟩ := Option.isSome_iff_exists.mp hparse
  have hty : determineResponseType cfg rv = .Failure := by
    unfold determineResponseType
    rw [if_neg (by exact not_lt.mpr h0), if_pos h1]
  refine ⟨?_, rfl, rfl, rfl, ?_⟩
  · unfold handleUssdSubmitSm
    rw [hsm, hty]
  · intro q hq
    simp only [List.mem_singleton] at hq
    subst hq
    simp [submitSmRespError, SUBMIT_SM_RESP, DELIVER_SM]

/-- C5 (witness): the failure-disposition theorem with `success = 0`,
`failure = 100`, error code `0x00000008` and a concrete draw of 50, on a
minimal well-formed SUBMIT_SM body. -/
theorem failure_disposition_witness :
    handleUssdSubmitSm ⟨0, 100, 0, 8, 5000⟩ 50 [] [] ⟨⟨33, 4, 0, 7⟩, List.replicate 17 0⟩ =
        some [⟨⟨16, SUBMIT_SM_RESP, 8, 7⟩, []⟩] := by
  have h := (failure_disposition ⟨0, 100, 0, 8, 5000⟩ 50 [] [] ⟨⟨33, 4, 0, 7⟩, List.replicate 17 0⟩
    (by decide) (by norm_num) (by norm_num)).1
  simpa [submitSmRespError] using h

end UssdSmpp

namespace StrM

/-!
String model shared by the gateway dialog and the handler dialog.  Rust
`String`s are `List Char`.  `char::is_whitespace` and `str::to_uppercase`
are restricted to their ASCII behaviour, the only range these programs
exercise.
-/

/-- Rust `String`s, modelled as their character lists. -/
abbrev RStr := List Char

/-- Model of `str::starts_with(char)`. -/
def startsWithChar (c : Char) : RStr → Bool
  | [] => false
  | x :: _ => x == c

/-- Model of `str::ends_with(char)`. -/
def endsWithChar (c : Char) (l : RStr) : Bool :=
  match l.getLast? with
  | some x => x == c
  | none => false

/-- ASCII decimal digit test. -/
def isDigitChar (c : Char) : Bool := 48 ≤ c.toNat && c.toNat ≤ 57

/-- Model of `char` uppercasing, ASCII range. -/
def toUpperChar (c : Char) : Char :=
  if 97 ≤ c.toNat ∧ c.toNat ≤ 122 then Char.ofNat (c.toNat - 32) else c

/-- Model of `str::to_uppercase`, ASCII range. -/
def toUpperStr (s : RStr) : RStr := s.map toUpperChar

/-- ASCII whitespace test for `str::trim`. -/
def isWSChar (c : Char) : Bool := c == ' ' || c == '\t' || c == '\n' || c == '\r'

/-- Model of `str::trim`. -/
def trimStr (s : RStr) : RStr :=
  ((s.dropWhile isWSChar).reverse.dropWhile isWSChar).reverse

/-- Model of `str::parse::<usize>()`: an optional leading `+`, then one or more
decimal digits.  (The `usize` overflow error on astronomically long digit
strings is not modelled; every use site treats an out-of-range number and a
parse error identically, so the observable behaviour agrees.) -/
def parseUsize (s : RStr) : Option Nat :=
  let t := if s.head? = some '+' then s.tail else s
  if t ≠ [] ∧ t.all isDigitChar then
    some (t.foldl (fun acc c => acc * 10 + (c.toNat - 48)) 0)
  else none

/-- Decimal rendering of a `Nat`, as Rust `format!` renders integers. -/
def numToChars (n : Nat) : RStr := (Nat.repr n).data

/-- The `~.2` float formatting of a package price, with the price held in
cents: the `f64` prices are only ever displayed with two decimals. -/
def formatMoney (cents : Nat) : RStr :=
  numToChars (cents / 100) ++ '.' ::
    (if cents % 100 < 10 then '0' :: numToChars (cents % 100) else numToChars (cents % 100))

/-- Model of `HashMap::get`, on an association list. -/
def lookupAssoc {α : Type} : List (RStr × α) → RStr → Option α
  | [], _ => none
  | (k, v) :: rest, key => if k = key then some v else lookupAssoc rest key

theorem toUpperChar_digit (c : Char) (h : isDigitChar c = true) : toUpperChar c = c := by
  unfold isDigitChar at h
  simp only [Bool.and_eq_true, decide_eq_true_eq] at h
  unfold toUpperChar
  rw [if_neg]
  intro hc
  omega

theorem parseUsize_none_of_toUpper_YES (inp : RStr) (hy : toUpperStr inp = "YES".data) :
    parseUsize inp = none := by
  cases inp with
  | nil => exact absurd hy (by decide)
  | cons c r =>
    have hc : toUpperChar c = 'Y' := by
      have h := congrArg List.head? hy
      simpa [toUpperStr] using h
    unfold parseUsize
    by_cases hplus : (c :: r).head? = some '+'
    · exfalso
      have hcp : c = '+' := by simpa using hplus
      subst hcp
      exact absurd hc (by decide)
    · rw [if_neg hplus, if_neg]
      rintro ⟨-, hall⟩
      have hd : isDigitChar c = true := by
        have := List.all_eq_true.mp hall c (by simp)
        simpa using this
      have hcc : c = 'Y' := by rw [← toUpperChar_digit c hd]; exact hc
      subst hcc
      exact absurd hd (by decide)

end StrM

namespace UssdSmpp

open StrM

/-- Model of `MenuConfig` from `ussd_smpp_simulator/src/main.rs`. -/
structure MenuConfig where
  welcome_message : RStr
  main_menu : List RStr
deriving DecidableEq, Repr

/-- Model of `ResponsesConfig` from `ussd_smpp_simulator/src/main.rs`. -/
structure ResponsesConfig where
  balance_message : RStr
  invalid_code : RStr
  invalid_option : RStr
  goodbye_message : RStr
deriving DecidableEq, Repr

/-- Model of `DataPackage` from `ussd_smpp_simulator/src/main.rs`; the `f64` price is
held in cents (it is only ever displayed with two decimals). -/
structure DataPackage where
  name : RStr
  priceCents : Nat
  data : RStr
deriving DecidableEq, Repr

/-- Model of `DataPackagesConfig` from `ussd_smpp_simulator/src/main.rs`. -/
structure DataPackagesConfig where
  packages : List DataPackage
deriving DecidableEq, Repr

/-- Model of `UssdConfig` from `ussd_smpp_simulator/src/main.rs` (the
`session_timeout` field is unused by the dialog functions and omitted). -/
structure UssdConfig where
  service_codes : List RStr
  menu : MenuConfig
  responses : ResponsesConfig
  data_packages : DataPackagesConfig
deriving DecidableEq, Repr

/-- Model of `UssdState` from `ussd_smpp_simulator/src/main.rs`. -/
inductive UssdState where
  | Initial
  | MainMenu
  | BalanceInquiry
  | DataPackages
  | CustomerService
  | Forwarded
  | Terminated
deriving DecidableEq, Repr

/-- Model of `UssdSession` from `ussd_smpp_simulator/src/main.rs` (the per-MSISDN
dialog state). -/
structure UssdSession where
  msisdn : RStr
  session_id : RStr
  state : UssdState
  menu_level : Nat
  last_request : RStr
deriving DecidableEq, Repr

/-- Model of `str::trim_end_matches('#')`: remove every trailing `#`. -/
def trimEndMatchesHash (l : RStr) : RStr :=
  (l.reverse.dropWhile (fun c => c == '#')).reverse

/-- The numbered package list built in the MainMenu `"2"` arm. -/
def packageLines : Nat → List DataPackage → RStr
  | _, [] => []
  | i, p :: ps =>
    numToChars (i + 1) ++ ". ".data ++ p.data ++ " - $".data ++
      formatMoney p.priceCents ++ '\n' :: packageLines (i + 1) ps

/-- Model of `UssdConnectionHandler::generate_ussd_response`.  The
`forward_to_bound_client` socket call is replaced by the oracle `forwardOk`
(whether a bound forwarding client accepted the request); the Rust function
mutates the session and returns the text, modelled as a text/session pair. -/
def generateUssdResponse (cfg : UssdConfig) (forwardOk : Bool) (s : UssdSession)
    (request : RStr) : RStr × UssdSession :=
  match s.state with
  | .Initial =>
    if cfg.service_codes.any (fun code => (trimEndMatchesHash code).isPrefixOf request) then
      (cfg.menu.welcome_message ++ '\n' :: List.intercalate "\n".data cfg.menu.main_menu,
       { s with state := .MainMenu, menu_level := 1 })
    else if forwardOk then
      ([], { s with state := .Forwarded })
    else
      (cfg.responses.invalid_code, { s with state := .Terminated })
  | .MainMenu =>
    if request = "1".data then
      (cfg.responses.balance_message ++ "\nPress 0 to return to main menu".data,
       { s with state := .BalanceInquiry })
    else if request = "2".data then
      ("Available Data Packages:\n".data ++ packageLines 0 cfg.data_packages.packages ++
         "0. Back to main menu".data,
       { s with state := .DataPackages })
    else if request = "3".data then
      ("Customer Service:\nCall 123 for support\nEmail: support@mytelecom.com\nPress 0 to return to main menu".data,
       { s with state := .CustomerService })
    else if request = "0".data then
      (cfg.responses.goodbye_message, { s with state := .Terminated })
    else
      (cfg.responses.invalid_option ++ '\n' :: List.intercalate "\n".data cfg.menu.main_menu, s)
  | .BalanceInquiry | .DataPackages | .CustomerService =>
    if request = "0".data then
      (cfg.menu.welcome_message ++ '\n' :: List.intercalate "\n".data cfg.menu.main_menu,
       { s with state := .MainMenu, menu_level := 1 })
    else if request = "00".data then
      (cfg.responses.goodbye_message, { s with state := .Terminated })
    else
      match s.state with
      | .DataPackages =>
        match parseUsize request with
        | some choice =>
          if 0 < choice ∧ choice ≤ cfg.data_packages.packages.length then
            let package := cfg.data_packages.packages.getD (choice - 1) ⟨[], 0, []⟩
            (package.name ++ " selected. Reply with \x27YES\x27 to confirm purchase for $".data ++
               formatMoney package.priceCents, s)
          else
            ("Invalid option. Please select a valid package number, or 0 to go back".data, s)
        | none =>
          if toUpperStr request = "YES".data then
            ("Package purchased successfully! You will receive a confirmation SMS shortly.\nPress 0 to return to main menu".data,
             { s with state := .MainMenu })
          else
            ("Invalid option. Please select a valid package number, or 0 to go back".data, s)
      | _ => ("Press 0 to return to main menu or 00 to exit".data, s)
  | .Forwarded =>
    if forwardOk then ([], s)
    else ("Service temporarily unavailable. Thank you!".data, { s with state := .Terminated })
  | .Terminated =>
    ("USSD session has ended. Please dial one of [".data ++
       List.intercalate ", ".data cfg.service_codes ++
       "] to start a new session.".data, s)

/-- The session-reset step at the top of
`UssdConnectionHandler::process_ussd_request`: an input that starts with `*`
and ends with `#` resets the session before interpretation. -/
def sessionAfterCodeReset (s : UssdSession) (ussd_code : RStr) : UssdSession :=
  if startsWithChar '*' ussd_code && endsWithChar '#' ussd_code then
    { s with state := .Initial, menu_level := 0, last_request := [] }
  else s

/-- Model of `UssdConnectionHandler::process_ussd_request`, restricted to the dialog
step for one session: reset on a `*…#` input, then interpret.  (Session-table
entry creation and the DELIVER_SM send are connection plumbing outside the
dialog claims.) -/
def processUssdRequest (cfg : UssdConfig) (forwardOk : Bool) (s : UssdSession)
    (ussd_code : RStr) : RStr × UssdSession :=
  generateUssdResponse cfg forwardOk (sessionAfterCodeReset s ussd_code) ussd_code

/-- C6. Session reset invariant: for every session and every input matching
the pattern star, non-hash characters, hash, processing first resets the
session to `Initial` with `menu_level = 0`, and interpretation by the dialog
state machine happens on that reset session. -/
theorem session_reset_before_interpretation (cfg : UssdConfig) (forwardOk : Bool)
    (s : UssdSession) (code : RStr)
    (h : ∃ mid, code = '*' :: mid ++ ['#'] ∧ '#' ∉ mid) :
    (sessionAfterCodeReset s code).state = .Initial ∧
      (sessionAfterCodeReset s code).menu_level = 0 ∧
      processUssdRequest cfg forwardOk s code =
        generateUssdResponse cfg forwardOk (sessionAfterCodeReset s code) code := by
  obtain ⟨mid, rfl, -⟩ := h
  have hcond : (startsWithChar '*' ('*' :: mid ++ ['#']) &&
      endsWithChar '#' ('*' :: mid ++ ['#'])) = true := by
    rw [Bool.and_eq_true]
    refine ⟨by simp [startsWithChar], ?_⟩
    unfold endsWithChar
    have hl : ('*' :: mid ++ ['#']).getLast? = some '#' :=
      List.getLast?_concat ('*' :: mid)
    rw [hl]
    simp
  have hreset : sessionAfterCodeReset s ('*' :: mid ++ ['#']) =
      { s with state := .Initial, menu_level := 0, last_request := [] } := by
    unfold sessionAfterCodeReset
    rw [if_pos hcond]
  exact ⟨by rw [hreset], by rw [hreset], rfl⟩

/-- C6 (witness): the reset theorem evaluated on a `MainMenu` session and the
concrete input `*1#`. -/
theorem session_reset_before_interpretation_witness :
    (sessionAfterCodeReset ⟨"777".data, "S".data, .MainMenu, 1, "x".data⟩ "*1#".data).state =
        UssdState.Initial ∧
      (sessionAfterCodeReset ⟨"777".data, "S".data, .MainMenu, 1, "x".data⟩ "*1#".data).menu_level =
        0 := by
  have h := session_reset_before_interpretation ⟨[], ⟨[], []⟩, ⟨[], [], [], []⟩, ⟨[]⟩⟩ false
    ⟨"777".data, "S".data, .MainMenu, 1, "x".data⟩ "*1#".data ⟨['1'], by decide, by decide⟩
  exact ⟨h.1, h.2.1⟩

/-- The `ussd` section of `Config::default()` in
`ussd_smpp_simulator/src/main.rs`. -/
def defaultUssdConfig : UssdConfig where
  service_codes := ["*123#".data]
  menu :=
    { welcome_message := "Welcome to MyTelecom USSD Service".data,
      main_menu := ["1. Balance Inquiry".data, "2. Data Packages".data,
        "3. Customer Service".data, "0. Exit".data] }
  responses :=
    { balance_message := "Your current balance is $25.50\nYour data balance is 2.5GB".data,
      invalid_code := "Invalid USSD code. Please try again.".data,
      invalid_option := "Invalid option. Please try again.".data,
      goodbye_message := "Thank you for using MyTelecom USSD Service. Goodbye!".data }
  data_packages :=
    { packages := [⟨"1GB Package".data, 1000, "1GB".data⟩,
        ⟨"5GB Package".data, 4000, "5GB".data⟩,
        ⟨"10GB Package".data, 7000, "10GB".data⟩] }

/-- C9. In state DataPackages: an input parsing to a number `k` with
`1 ≤ k ≤ N` yields the confirmation prompt for package `k` and leaves the
session unchanged; an input whose uppercasing is `YES` yields the purchase
success message and moves the state to MainMenu; any other non-navigation
input (not `0`, not `00`, not `YES`, not an in-range number) yields the
invalid-package message and leaves the session unchanged. -/
theorem data_packages_dialog (cfg : UssdConfig) (forwardOk : Bool) (s : UssdSession)
    (hs : s.state = .DataPackages) :
    (∀ inp k pkg, parseUsize inp = some k → 1 ≤ k →
        cfg.data_packages.packages.get? (k - 1) = some pkg →
        generateUssdResponse cfg forwardOk s inp =
          (pkg.name ++ " selected. Reply with \x27YES\x27 to confirm purchase for $".data ++
            formatMoney pkg.priceCents, s)) ∧
      (∀ inp, toUpperStr inp = "YES".data →
        generateUssdResponse cfg forwardOk s inp =
          ("Package purchased successfully! You will receive a confirmation SMS shortly.\nPress 0 to return to main menu".data,
           { s with state := .MainMenu })) ∧
      (∀ inp, inp ≠ "0".data → inp ≠ "00".data → toUpperStr inp ≠ "YES".data →
        (∀ k, parseUsize inp = some k → ¬(1 ≤ k ∧ k ≤ cfg.data_packages.packages.length)) →
        generateUssdResponse cfg forwardOk s inp =
          ("Invalid option. Please select a valid package number, or 0 to go back".data, s)) := by
  obtain ⟨msisdn, sid, st, ml, lr⟩ := s
  change st = _ at hs
  subst hs
  refine ⟨?_, ?_, ?_⟩
  · intro inp k pkg hp hk hg
    have h0 : ¬inp = "0".data := by
      rintro rfl
      rw [show parseUsize "0".data = some 0 from by decide] at hp
      injection hp with h
      omega
    have h00 : ¬inp = "00".data := by
      rintro rfl
      rw [show parseUsize "00".data = some 0 from by decide] at hp
      injection hp with h
      omega
    have hg' := hg
    rw [List.get?_eq_getElem?] at hg'
    have hlt : k - 1 < cfg.data_packages.packages.length :=
      (List.get?_eq_some.mp hg).1
    have hgetD : cfg.data_packages.packages.getD (k - 1) ⟨[], 0, []⟩ = pkg := by
      simp [List.getD, hg']
    unfold generateUssdResponse
    dsimp only
    rw [if_neg h0, if_neg h00, hp]
    dsimp only
    rw [if_pos ⟨by omega, by omega⟩, hgetD]
  · intro inp hy
    have hpn := parseUsize_none_of_toUpper_YES inp hy
    have h0 : ¬inp = "0".data := by rintro rfl; exact absurd hy (by decide)
    have h00 : ¬inp = "00".data := by rintro rfl; exact absurd hy (by decide)
    unfold generateUssdResponse
    dsimp only
    rw [if_neg h0, if_neg h00, hpn]
    dsimp only
    rw [if_pos hy]
  · intro inp h0 h00 hyn hnum
    unfold generateUssdResponse
    dsimp only
    rw [if_neg h0, if_neg h00]
    cases hpe : parseUsize inp with
    | some k =>
      dsimp only
      have hnk : ¬(0 < k ∧ k ≤ cfg.data_packages.packages.length) := by
        rintro ⟨ha, hb⟩
        exact hnum k hpe ⟨ha, hb⟩
      rw [if_neg hnk]
    | none =>
      dsimp only
      rw [if_neg hyn]

/-- C9 (witness): in DataPackages under the default configuration, input `1`
yields the 1GB confirmation prompt with price `$10.00`, and input `yes`
(case-insensitively `YES`) yields the purchase success message with the state
moved to MainMenu. -/
theorem data_packages_dialog_witness :
    generateUssdResponse defaultUssdConfig false
        ⟨"777".data, "S".data, .DataPackages, 1, [] ⟩ "1".data =
      ("1GB Package selected. Reply with \x27YES\x27 to confirm purchase for $10.00".data,
       ⟨"777".data, "S".data, .DataPackages, 1, []⟩) ∧
      generateUssdResponse defaultUssdConfig false
        ⟨"777".data, "S".data, .DataPackages, 1, []⟩ "yes".data =
      ("Package purchased successfully! You will receive a confirmation SMS shortly.\nPress 0 to return to main menu".data,
       ⟨"777".data, "S".data, .MainMenu, 1, []⟩) := by
  have h := data_packages_dialog defaultUssdConfig false
    ⟨"777".data, "S".data, .DataPackages, 1, []⟩ rfl
  constructor
  · have h1 := h.1 "1".data 1 ⟨"1GB Package".data, 1000, "1GB".data⟩
      (by decide) (by decide) (by decide)
    rw [h1]
    decide
  · have h2 := h.2.1 "yes".data (by decide)
    rw [h2]

end UssdSmpp

namespace Handler

open StrM

/-!
Embedding of the handler-side dialog interpreter,
`ussd_smpp_client_simulator/src/ussd.rs` with its configuration from
`ussd_smpp_client_simulator/src/config.rs`.  `HashMap`s are association
lists; `SystemTime`-based session expiry is an explicit `expired` oracle
parameter of `process_input`; time-based session-id generation is a
parameter of `UssdSession.new`.
-/

/-- Model of `MenuOption` from `config.rs`. -/
structure MenuOption where
  key : RStr
  text : RStr
  action : RStr
  target : RStr
deriving DecidableEq, Repr

/-- Model of `MenuConfig` from `config.rs`. -/
structure MenuConfig where
  title : RStr
  options : List MenuOption
deriving DecidableEq, Repr

/-- Model of `MenuConfigs` from `config.rs`. -/
structure MenuConfigs where
  default_menu : RStr
  menus : List (RStr × MenuConfig)
deriving DecidableEq, Repr

/-- Model of `UssdCodeMapping` from `config.rs`. -/
structure UssdCodeMapping where
  code : RStr
  menu : RStr
  description : RStr
deriving DecidableEq, Repr

/-- Model of `UssdCodeConfig` from `config.rs`. -/
structure UssdCodeConfig where
  default_menu : RStr
  codes : List UssdCodeMapping
  handle_codes : List RStr
  unrecognized_action : RStr
  unrecognized_message : RStr
deriving DecidableEq, Repr

/-- Model of `DefaultResponses` from `config.rs`. -/
structure DefaultResponses where
  invalid_option : RStr
  session_timeout : RStr
  system_error : RStr
  exit_message : RStr
deriving DecidableEq, Repr

/-- Model of `ResponseConfigs` from `config.rs`. -/
structure ResponseConfigs where
  responses : List (RStr × RStr)
  defaults : DefaultResponses
deriving DecidableEq, Repr

/-- Model of `SessionConfig` from `config.rs`. -/
structure SessionConfig where
  timeout_seconds : Nat
  max_menu_depth : Nat
  enable_back_navigation : Bool
  remember_last_menu : Bool
deriving DecidableEq, Repr

/-- The slice of `ClientConfig` that the menu manager reads. -/
structure ClientConfig where
  ussd_codes : UssdCodeConfig
  menus : MenuConfigs
  responses : ResponseConfigs
  session : SessionConfig
deriving DecidableEq, Repr

/-- Model of `UssdSession` from `ussd.rs` (`last_activity` is handled by the expiry
oracle). -/
structure UssdSession where
  msisdn : RStr
  session_id : RStr
  current_menu : RStr
  menu_history : List RStr
  menu_depth : Nat
  data : List (RStr × RStr)
deriving DecidableEq, Repr

/-- Model of `UssdSession::new` (the time-derived session id is a parameter). -/
def UssdSession.new (msisdn session_id : RStr) : UssdSession :=
  ⟨msisdn, session_id, "main".data, [], 0, []⟩

/-- Model of `UssdSession::navigate_to_menu`: push the current menu and descend, but
only when the target differs from the current menu. -/
def navigateToMenu (s : UssdSession) (menu_name : RStr) : UssdSession :=
  if menu_name ≠ s.current_menu then
    { s with menu_history := s.menu_history.concat s.current_menu,
             current_menu := menu_name,
             menu_depth := s.menu_depth + 1 }
  else s

/-- Model of `UssdSession::go_back`: `Vec::pop` from the end of the history;
`menu_depth` decreases with saturation (`Nat` subtraction). -/
def goBack (s : UssdSession) : Bool × UssdSession :=
  match s.menu_history.getLast? with
  | some previous_menu =>
    (true, { s with current_menu := previous_menu,
                    menu_history := s.menu_history.dropLast,
                    menu_depth := s.menu_depth - 1 })
  | none => (false, s)

/-- Model of `UssdSession::reset_to_main`. -/
def resetToMain (s : UssdSession) (default_menu : RStr) : UssdSession :=
  { s with current_menu := default_menu, menu_history := [], menu_depth := 0, data := [] }

/-- Option lines built by `UssdMenuManager::show_menu`. -/
def optionLines : List MenuOption → RStr
  | [] => []
  | o :: rest => o.key ++ ". ".data ++ o.text ++ '\n' :: optionLines rest

/-- Model of `UssdMenuManager::show_menu`: title, blank line, option lines, and a Back
hint when back-navigation is enabled and the session is below a submenu. -/
def showMenu (cfg : ClientConfig) (s : UssdSession) (menu_name : RStr) : RStr :=
  match lookupAssoc cfg.menus.menus menu_name with
  | some menu =>
    let response := menu.title ++ "\n\n".data ++ optionLines menu.options
    if cfg.session.enable_back_navigation && decide (0 < s.menu_depth) then
      response ++ "\n00. 🔙 Back".data
    else response
  | none => cfg.responses.defaults.system_error

/-- Model of `UssdMenuManager::handle_menu_option`: dispatch on the option action. -/
def handleMenuOption (cfg : ClientConfig) (s : UssdSession) (option : MenuOption) :
    RStr × UssdSession :=
  if option.action = "submenu".data then
    if option.target = [] then (cfg.responses.defaults.system_error, s)
    else if cfg.session.max_menu_depth ≤ s.menu_depth then
      ("❌ Maximum menu depth reached.\n\n".data ++ cfg.responses.defaults.invalid_option, s)
    else
      let s1 := navigateToMenu s option.target
      (showMenu cfg s1 option.target, s1)
  else if option.action = "response".data then
    match lookupAssoc cfg.responses.responses option.target with
    | some response => (response, s)
    | none => (cfg.responses.defaults.system_error, s)
  else if option.action = "exit".data then
    (cfg.responses.defaults.exit_message, resetToMain s cfg.menus.default_menu)
  else (cfg.responses.defaults.system_error, s)

/-- Model of `UssdMenuManager::handle_unrecognized_code`. -/
def handleUnrecognizedCode (cfg : ClientConfig) (ussd_code : RStr) : RStr :=
  if cfg.ussd_codes.unrecognized_action = "reject".data then
    "🚫 USSD code ".data ++ ussd_code ++ " is not supported by this service.\n\n".data ++
      cfg.ussd_codes.unrecognized_message
  else if cfg.ussd_codes.unrecognized_action = "default_menu".data then
    "⚠️ USSD code ".data ++ ussd_code ++ " redirected to main menu.\n\n".data ++
      cfg.ussd_codes.unrecognized_message
  else
    "🔄 USSD code ".data ++ ussd_code ++ " forwarded to network.\n\n".data ++
      cfg.ussd_codes.unrecognized_message

/-- Model of `UssdMenuManager::handle_ussd_code`: the `handle_codes` claim-list check
comes FIRST; only an input that passes it is looked up in the ordered
mapping list, and an unmapped one resets to `ussd_codes.default_menu`. -/
def handleUssdCode (cfg : ClientConfig) (s : UssdSession) (ussd_code : RStr) :
    RStr × UssdSession :=
  if cfg.ussd_codes.handle_codes ≠ [] ∧ ussd_code ∉ cfg.ussd_codes.handle_codes then
    (handleUnrecognizedCode cfg ussd_code, s)
  else
    match cfg.ussd_codes.codes.find? (fun mapping => mapping.code == ussd_code) with
    | some mapping =>
      let s1 := resetToMain s mapping.menu
      (showMenu cfg s1 mapping.menu, s1)
    | none =>
      let s1 := resetToMain s cfg.ussd_codes.default_menu
      (showMenu cfg s1 cfg.ussd_codes.default_menu, s1)

/-- Model of `UssdMenuManager::process_input`.  `expired` is the oracle for
`session.is_expired(timeout_seconds)`. -/
def processInput (cfg : ClientConfig) (expired : Bool) (s : UssdSession) (input0 : RStr) :
    RStr × UssdSession :=
  let input := trimStr input0
  if expired then
    (cfg.responses.defaults.session_timeout, resetToMain s cfg.menus.default_menu)
  else if startsWithChar '*' input && endsWithChar '#' input then
    handleUssdCode cfg s input
  else if input = "00".data ∧ cfg.session.enable_back_navigation = true then
    match goBack s with
    | (true, s1) => (showMenu cfg s1 s1.current_menu, s1)
    | (false, s1) => (cfg.responses.defaults.exit_message, s1)
  else
    match lookupAssoc cfg.menus.menus s.current_menu with
    | some menu =>
      match menu.options.find? (fun opt => opt.key == input) with
      | some option => handleMenuOption cfg s option
      | none =>
        (cfg.responses.defaults.invalid_option ++ "\n\n".data ++ showMenu cfg s s.current_menu, s)
    | none =>
      (cfg.responses.defaults.system_error, resetToMain s cfg.menus.default_menu)

/-- A finite sequence of inputs processed through `process_input`; each step
carries its expiry-oracle value. -/
def runInputs (cfg : ClientConfig) (s : UssdSession) : List (Bool × RStr) → UssdSession
  | [] => s
  | (e, inp) :: rest => runInputs cfg (processInput cfg e s inp).2 rest

/-- The back-navigation invariant of a handler session. -/
def sessionInvariant (cfg : ClientConfig) (s : UssdSession) : Prop :=
  s.menu_history.length = s.menu_depth ∧ s.menu_depth ≤ cfg.session.max_menu_depth

theorem sessionInvariant_new (cfg : ClientConfig) (msisdn session_id : RStr) :
    sessionInvariant cfg (UssdSession.new msisdn session_id) :=
  ⟨rfl, Nat.zero_le _⟩

theorem sessionInvariant_reset (cfg : ClientConfig) (s : UssdSession) (d : RStr) :
    sessionInvariant cfg (resetToMain s d) :=
  ⟨rfl, Nat.zero_le _⟩

theorem sessionInvariant_navigate (cfg : ClientConfig) (s : UssdSession) (t : RStr)
    (h : sessionInvariant cfg s) (hd : s.menu_depth < cfg.session.max_menu_depth) :
    sessionInvariant cfg (navigateToMenu s t) := by
  unfold navigateToMenu
  split_ifs with h1
  · exact ⟨by simp [h.1], hd⟩
  · exact h

theorem sessionInvariant_goBack (cfg : ClientConfig) (s : UssdSession)
    (h : sessionInvariant cfg s) : sessionInvariant cfg (goBack s).2 := by
  unfold goBack
  cases hl : s.menu_history.getLast? with
  | none => exact h
  | some p =>
    dsimp only
    refine ⟨?_, ?_⟩
    · simp only [List.length_dropLast, h.1]
    · show s.menu_depth - 1 ≤ cfg.session.max_menu_depth
      have := h.2
      omega

theorem sessionInvariant_handleMenuOption (cfg : ClientConfig) (s : UssdSession)
    (option : MenuOption) (h : sessionInvariant cfg s) :
    sessionInvariant cfg (handleMenuOption cfg s option).2 := by
  unfold handleMenuOption
  split_ifs with h1 h2 h3 h4 h5
  · exact h
  · exact h
  · exact sessionInvariant_navigate cfg s option.target h (by omega)
  · cases lookupAssoc cfg.responses.responses option.target <;> exact h
  · exact sessionInvariant_reset cfg s _
  · exact h

theorem sessionInvariant_handleUssdCode (cfg : ClientConfig) (s : UssdSession)
    (code : RStr) (h : sessionInvariant cfg s) :
    sessionInvariant cfg (handleUssdCode cfg s code).2 := by
  unfold handleUssdCode
  split_ifs with h1
  · exact h
  · cases cfg.ussd_codes.codes.find? (fun mapping => mapping.code == code) <;>
      exact sessionInvariant_reset cfg s _

theorem sessionInvariant_processInput (cfg : ClientConfig) (s : UssdSession)
    (expired : Bool) (input : RStr) (h : sessionInvariant cfg s) :
    sessionInvariant cfg (processInput cfg expired s input).2 := by
  unfold processInput
  dsimp only
  split_ifs with h1 h2 h3
  · exact sessionInvariant_reset cfg s _
  · exact sessionInvariant_handleUssdCode cfg s _ h
  · have hb := sessionInvariant_goBack cfg s h
    cases hgb : goBack s with
    | mk b s1 =>
      rw [hgb] at hb
      cases b <;> exact hb
  · cases lookupAssoc cfg.menus.menus s.current_menu with
    | none => exact sessionInvariant_reset cfg s _
    | some menu =>
      dsimp only
      cases menu.options.find? (fun opt => opt.key == trimStr input) with
      | none => exact h
      | some option => exact sessionInvariant_handleMenuOption cfg s option h

theorem sessionInvariant_runInputs (cfg : ClientConfig) (inputs : List (Bool × RStr)) :
    ∀ s : UssdSession, sessionInvariant cfg s →
      sessionInvariant cfg (runInputs cfg s inputs) := by
  induction inputs with
  | nil => intro s h; exact h
  | cons p rest ih =>
    intro s h
    obtain ⟨e, inp⟩ := p
    exact ih _ (sessionInvariant_processInput cfg s e inp h)

/-- C8. Back-navigation invariant: `process_input` preserves
`len(menu_history) = menu_depth ∧ menu_depth ≤ max_menu_depth`; consequently
the invariant holds after every finite input sequence from a fresh session;
and a submenu option taken at `menu_depth = max_menu_depth` yields the
depth-exceeded message and leaves the session (hence the depth) unchanged. -/
theorem menu_depth_invariant (cfg : ClientConfig) :
    (∀ s : UssdSession, sessionInvariant cfg s →
        ∀ (expired : Bool) (input : RStr),
          sessionInvariant cfg (processInput cfg expired s input).2) ∧
      (∀ (msisdn session_id : RStr) (inputs : List (Bool × RStr)),
        sessionInvariant cfg (runInputs cfg (UssdSession.new msisdn session_id) inputs)) ∧
      (∀ (s : UssdSession) (option : MenuOption),
        option.action = "submenu".data → option.target ≠ [] →
        s.menu_depth = cfg.session.max_menu_depth →
        handleMenuOption cfg s option =
          ("❌ Maximum menu depth reached.\n\n".data ++ cfg.responses.defaults.invalid_option,
           s)) := by
  refine ⟨?_, ?_, ?_⟩
  · intro s h expired input
    exact sessionInvariant_processInput cfg s expired input h
  · intro msisdn session_id inputs
    exact sessionInvariant_runInputs cfg inputs _ (sessionInvariant_new cfg msisdn session_id)
  · intro s option ha ht hd
    unfold handleMenuOption
    rw [if_pos ha, if_neg ht, if_pos (by omega)]

/-- A small concrete handler configuration for evaluating the theorems:
two menus, a mapping for `*2#`, a claim-list holding only `*1#`, and
`max_menu_depth = 1`. -/
def demoConfig : ClientConfig where
  ussd_codes :=
    { default_menu := "menuA".data,
      codes := [⟨"*2#".data, "menuB".data, "demo".data⟩],
      handle_codes := ["*1#".data],
      unrecognized_action := "reject".data,
      unrecognized_message := "try again".data }
  menus :=
    { default_menu := "menuA".data,
      menus := [("menuA".data,
          ⟨"Menu A".data,
           [⟨"1".data, "Go B".data, "submenu".data, "menuB".data⟩,
            ⟨"2".data, "Stay".data, "submenu".data, "menuA".data⟩]⟩),
        ("menuB".data, ⟨"Menu B".data, []⟩)] }
  responses :=
    { responses := [],
      defaults := ⟨"invalid".data, "timeout".data, "syserr".data, "bye".data⟩ }
  session :=
    { timeout_seconds := 300, max_menu_depth := 1,
      enable_back_navigation := true, remember_last_menu := false }

/-- C8 (witness): the invariant theorem evaluated on the demo configuration —
one `process_input` step from a fresh session keeps the invariant, and a
submenu option taken at `menu_depth = max_menu_depth = 1` returns the
depth-exceeded message with the session unchanged. -/
theorem menu_depth_invariant_witness :
    sessionInvariant demoConfig
        (processInput demoConfig false (UssdSession.new "7".data "S".data) "1".data).2 ∧
      handleMenuOption demoConfig ⟨"7".data, "S".data, "menuB".data, ["menuA".data], 1, []⟩
          ⟨"1".data, "Go B".data, "submenu".data, "menuB".data⟩ =
        ("❌ Maximum menu depth reached.\n\n".data ++ demoConfig.responses.defaults.invalid_option,
         ⟨"7".data, "S".data, "menuB".data, ["menuA".data], 1, []⟩) := by
  constructor
  · exact (menu_depth_invariant demoConfig).1 (UssdSession.new "7".data "S".data)
      ⟨rfl, Nat.zero_le _⟩ false "1".data
  · exact (menu_depth_invariant demoConfig).2.2
      ⟨"7".data, "S".data, "menuB".data, ["menuA".data], 1, []⟩
      ⟨"1".data, "Go B".data, "submenu".data, "menuB".data⟩ rfl (by decide) rfl

/-- C10. A submenu option whose target equals the current menu leaves the
session — `current_menu`, `menu_history`, `menu_depth` — entirely unchanged
(`navigate_to_menu` pushes nothing), and below the depth limit the target
menu is merely re-rendered. -/
theorem submenu_self_target (cfg : ClientConfig) (s : UssdSession) (option : MenuOption)
    (ha : option.action = "submenu".data) (ht : option.target = s.current_menu) :
    (handleMenuOption cfg s option).2 = s ∧
      (option.target ≠ [] → s.menu_depth < cfg.session.max_menu_depth →
        handleMenuOption cfg s option = (showMenu cfg s option.target, s)) := by
  have hnav : navigateToMenu s option.target = s := by
    unfold navigateToMenu
    rw [ht]
    simp
  constructor
  · unfold handleMenuOption
    rw [if_pos ha]
    split_ifs with h1 h2
    · rfl
    · rfl
    · simp [hnav]
  · intro hne hd
    unfold handleMenuOption
    rw [if_pos ha, if_neg hne, if_neg (by omega : ¬cfg.session.max_menu_depth ≤ s.menu_depth),
      hnav]

/-- C10 (witness): the self-target theorem evaluated on the demo
configuration — option `2` of menu A targets menu A itself; the session is
unchanged and menu A is re-rendered. -/
theorem submenu_self_target_witness :
    handleMenuOption demoConfig ⟨"7".data, "S".data, "menuA".data, [], 0, []⟩
        ⟨"2".data, "Stay".data, "submenu".data, "menuA".data⟩ =
      (showMenu demoConfig ⟨"7".data, "S".data, "menuA".data, [], 0, []⟩ "menuA".data,
       ⟨"7".data, "S".data, "menuA".data, [], 0, []⟩) := by
  have h := (submenu_self_target demoConfig ⟨"7".data, "S".data, "menuA".data, [], 0, []⟩
    ⟨"2".data, "Stay".data, "submenu".data, "menuA".data⟩ rfl rfl).2 (by decide) (by decide)
  exact h

/-- C7 (counterexample).  With a non-empty claim-list that does not contain
`*2#`, the input `*2#` IS found in the ordered mapping list (mapped to
`menuB`), yet `handle_ussd_code` emits the unrecognized-action message and
does not reset the session to that menu: the claim-list check precedes the
mapping lookup, not the other way round as claimed. -/
theorem handle_ussd_code_mapping_not_first :
    (demoConfig.ussd_codes.codes.find? (fun m => m.code == "*2#".data)).isSome = true ∧
      demoConfig.ussd_codes.handle_codes ≠ [] ∧
      "*2#".data ∉ demoConfig.ussd_codes.handle_codes ∧
      (handleUssdCode demoConfig (UssdSession.new "7".data "S".data) "*2#".data).2 =
        UssdSession.new "7".data "S".data ∧
      (handleUssdCode demoConfig (UssdSession.new "7".data "S".data) "*2#".data).2.current_menu ≠
        "menuB".data ∧
      (handleUssdCode demoConfig (UssdSession.new "7".data "S".data) "*2#".data).1 =
        handleUnrecognizedCode demoConfig "*2#".data := by
  decide

/-- C7 (amended).  `handle_ussd_code` checks the claim-list FIRST: a
non-empty `handle_codes` not containing the input yields the
unrecognized-action message with the session unchanged; otherwise a mapping
hit resets the session to the mapping menu and renders it; otherwise the
session resets to `ussd_codes.default_menu`, which is rendered.  And
`process_input` dispatches every trimmed `*…#` input of a live session to
`handle_ussd_code`. -/
theorem handle_ussd_code_order (cfg : ClientConfig) (s : UssdSession) (input : RStr) :
    (cfg.ussd_codes.handle_codes ≠ [] → input ∉ cfg.ussd_codes.handle_codes →
        handleUssdCode cfg s input = (handleUnrecognizedCode cfg input, s)) ∧
      (∀ mapping, (cfg.ussd_codes.handle_codes = [] ∨ input ∈ cfg.ussd_codes.handle_codes) →
        cfg.ussd_codes.codes.find? (fun m => m.code == input) = some mapping →
        handleUssdCode cfg s input =
          (showMenu cfg (resetToMain s mapping.menu) mapping.menu, resetToMain s mapping.menu)) ∧
      ((cfg.ussd_codes.handle_codes = [] ∨ input ∈ cfg.ussd_codes.handle_codes) →
        cfg.ussd_codes.codes.find? (fun m => m.code == input) = none →
        handleUssdCode cfg s input =
          (showMenu cfg (resetToMain s cfg.ussd_codes.default_menu) cfg.ussd_codes.default_menu,
           resetToMain s cfg.ussd_codes.default_menu)) ∧
      (startsWithChar '*' (trimStr input) = true → endsWithChar '#' (trimStr input) = true →
        processInput cfg false s input = handleUssdCode cfg s (trimStr input)) := by
  refine ⟨?_, ?_, ?_, ?_⟩
  · intro h1 h2
    unfold handleUssdCode
    rw [if_pos ⟨h1, h2⟩]
  · intro mapping hok hfind
    unfold handleUssdCode
    rw [if_neg ?_, hfind]
    rintro ⟨hne, hnm⟩
    rcases hok with h | h
    · exact hne h
    · exact hnm h
  · intro hok hfind
    unfold handleUssdCode
    rw [if_neg ?_, hfind]
    rintro ⟨hne, hnm⟩
    rcases hok with h | h
    · exact hne h
    · exact hnm h
  · intro hst hen
    unfold processInput
    dsimp only
    rw [if_neg (by simp), if_pos (by simp [hst, hen])]

/-- C7 (witness): the amended theorem evaluated on the demo configuration —
`*1#` passes the claim-list, has no mapping, and resets the session to the
default menu `menuA`, which is rendered. -/
theorem handle_ussd_code_order_witness :
    handleUssdCode demoConfig (UssdSession.new "7".data "S".data) "*1#".data =
      (showMenu demoConfig
        (resetToMain (UssdSession.new "7".data "S".data) demoConfig.ussd_codes.default_menu)
        demoConfig.ussd_codes.default_menu,
       resetToMain (UssdSession.new "7".data "S".data) demoConfig.ussd_codes.default_menu) := by
  exact (handle_ussd_code_order demoConfig (UssdSession.new "7".data "S".data)
    "*1#".data).2.2.1 (Or.inr (by decide)) (by decide)

end Handler
